import Mathlib

/-!
Verification development for the sales-dashboard pipeline
(`src/utils.py`, `src/app.py`, `src/pages/01_担当者分析.py`,
`src/pages/03_AIアシスタント.py`).

The embedding models pandas data frames as lists of rows.  A cell of a
numeric column after `pd.to_numeric(..., errors='coerce')` is `Option Rat`
(`none` = NaN); the `売上年月` column after
`pd.to_datetime(..., format='%Y-%m', errors='coerce')` is `Option Nat`
(`none` = NaT, months encoded linearly as `year*12 + (month-1)`).
Derived floating-point quantities that can become NaN or ±infinity
(pandas element-wise division, `pct_change`) are modelled by `PVal`.
-/

attribute [local semireducible] Rat.sub Rat.add Rat.mul Rat.inv

/-- IEEE-style value produced by pandas arithmetic: a finite rational,
NaN, +∞ or -∞. -/
inductive PVal where
  | fin (q : Rat)
  | nan
  | pinf
  | ninf
deriving DecidableEq, Repr

/-- Pandas/NumPy division of finite values: `a / b` is finite when `b ≠ 0`,
and otherwise ±∞ or NaN according to the sign of `a` (division by zero
warns, it never raises). -/
def pandasDiv (a b : Rat) : PVal :=
  if b ≠ 0 then .fin (a / b)
  else if 0 < a then .pinf
  else if a < 0 then .ninf
  else .nan

/-- Multiplication by the positive constant 100 (as in `... * 100`):
finite values scale, NaN and ±∞ are preserved. -/
def pmul100 : PVal → PVal
  | .fin q => .fin (q * 100)
  | .nan => .nan
  | .pinf => .pinf
  | .ninf => .ninf

/-- Round half to even at an integer boundary (NumPy rounding). -/
def roundHalfEven (x : Rat) : Int :=
  let f : Int := ⌊x⌋
  let r : Rat := x - f
  if r < 1/2 then f
  else if 1/2 < r then f + 1
  else if f % 2 = 0 then f else f + 1

/-- `Series.round(d)` on a finite value: half-to-even at `d` decimal places. -/
def roundTo (d : Nat) (q : Rat) : Rat :=
  (roundHalfEven (q * (10 : Rat) ^ d) : Rat) / (10 : Rat) ^ d

/-- `Series.round(d)` lifted to pandas values: NaN and ±∞ are unchanged. -/
def pround (d : Nat) : PVal → PVal
  | .fin q => .fin (roundTo d q)
  | .nan => .nan
  | .pinf => .pinf
  | .ninf => .ninf

/-- Is the value a finite number (neither NaN nor ±∞)? -/
def PVal.isFinite : PVal → Bool
  | .fin _ => true
  | _ => false

/-- One record of the sales table after the type coercions of
`DataManager.load_data`. -/
structure Row where
  period : Option Nat
  product : String
  staff : String
  customer : String
  sales : Option Rat
  cost : Option Rat
  profit : Option Rat
deriving DecidableEq, Repr

/-- A raw CSV table: header names plus one association list
(column name ↦ cell text) per data row. -/
structure RawTable where
  cols : List String
  rows : List (List (String × String))
deriving Repr

/-- The required columns checked by `DataManager.load_data`
(`required_columns` in `src/utils.py`). -/
def requiredColumns : List String :=
  ["売上年月", "商品名", "担当者", "顧客名", "売上金額", "仕入れ金額", "粗利金額"]

/-- Cell lookup; a missing cell reads as the empty string. -/
def getCell (cells : List (String × String)) (c : String) : String :=
  (cells.lookup c).getD ""

/-- Split a character list at every occurrence of `sep`. -/
def splitOnChar (sep : Char) : List Char → List (List Char)
  | [] => [[]]
  | c :: rest =>
    let r := splitOnChar sep rest
    if c = sep then [] :: r
    else
      match r with
      | [] => [[c]]
      | h :: t => (c :: h) :: t

/-- Interpret a non-empty run of decimal digits. -/
def digitsToNat (cs : List Char) : Option Nat :=
  if cs ≠ [] ∧ cs.all (·.isDigit) then
    some (cs.foldl (fun a c => a * 10 + (c.toNat - 48)) 0)
  else none

/-- `pd.to_datetime(s, format='%Y-%m', errors='coerce')`: a year, a dash
and a month in 1..12 give the linear month number, anything else is NaT. -/
def parseYM (s : String) : Option Nat :=
  match splitOnChar '-' s.toList with
  | [y, m] =>
    match digitsToNat y, digitsToNat m with
    | some yv, some mv => if 1 ≤ mv ∧ mv ≤ 12 then some (yv * 12 + (mv - 1)) else none
    | _, _ => none
  | _ => none

/-- Decimal-literal core of `pd.to_numeric(s, errors='coerce')`:
an optional minus sign, an integer part and an optional fraction part;
anything else coerces to NaN. -/
def parseNum (s : String) : Option Rat :=
  let core : List Char → Option Rat := fun cs =>
    match splitOnChar '.' cs with
    | [i] => (digitsToNat i).map (fun n => (n : Rat))
    | [i, f] =>
      match digitsToNat i, digitsToNat f with
      | some iv, some fv => some ((iv : Rat) + (fv : Rat) / (10 : Rat) ^ f.length)
      | _, _ => none
    | _ => none
  match s.toList with
  | '-' :: rest => (core rest).map (fun q => -q)
  | cs => core cs

/-- Result of `DataManager.load_data`: the frame it returns, the
`st.error` message when loading failed, and whether the null-count
warning (`logger.warning`) fired. -/
structure LoadResult where
  data : List Row
  error : Option String
  nullWarned : Bool
deriving Repr

/-- `DataManager.load_data` (src/utils.py): checks the required columns
(raising, caught, reported via `st.error` and an empty frame), coerces
`売上年月` with `errors='coerce'` and the numeric columns with
`pd.to_numeric(..., errors='coerce')`, and warns when any null remains. -/
def loadData (t : RawTable) : LoadResult :=
  let missing := requiredColumns.filter (fun c => ¬ t.cols.contains c)
  if missing ≠ [] then
    { data := [], error := some "データ読み込みエラー: 必要な列が不足しています", nullWarned := false }
  else
    let data := t.rows.map (fun cells =>
      { period := parseYM (getCell cells "売上年月")
        product := getCell cells "商品名"
        staff := getCell cells "担当者"
        customer := getCell cells "顧客名"
        sales := parseNum (getCell cells "売上金額")
        cost := parseNum (getCell cells "仕入れ金額")
        profit := parseNum (getCell cells "粗利金額") : Row })
    { data := data
      error := none
      nullWarned := data.any (fun r =>
        r.period.isNone || r.sales.isNone || r.cost.isNone || r.profit.isNone) }

/-- Absolute value on the rationals, written out so that it evaluates by
kernel reduction. -/
def ratAbs (q : Rat) : Rat := if q < 0 then -q else q

/-- Does the row violate the profit-consistency check of
`DataManager.validate_data` (`abs(粗利金額 - (売上金額 - 仕入れ金額)) > 1`)?
Pandas comparisons with NaN are `False`, so a row with any missing
numeric field never triggers it. -/
def profitMismatch (r : Row) : Bool :=
  match r.sales, r.cost, r.profit with
  | some s, some c, some g => decide (1 < ratAbs (g - (s - c)))
  | _, _, _ => false

/-- Negative-value check on an optional numeric cell (`min() < 0` is
`False` on NaN/empty, and is `True` iff some present value is negative). -/
def negCell (v : Option Rat) : Bool :=
  match v with
  | some q => decide (q < 0)
  | none => false

/-- Message appended when `売上金額` has a negative value. -/
def salesNegMsg : String := "売上金額に負の値が含まれています"

/-- Message appended when `粗利金額` has a negative value. -/
def profitNegMsg : String := "粗利金額に負の値が含まれています"

/-- Message appended (once) when some row fails the profit-consistency check. -/
def consistencyMsg : String := "粗利金額と売上金額-仕入れ金額に不一致があります"

/-- The report built by `DataManager.validate_data`. -/
structure ValidationReport where
  is_valid : Bool
  issues : List String
deriving DecidableEq, Repr

/-- `DataManager.validate_data` (src/utils.py).  Building the summary
computes `df['売上年月'].min().strftime('%Y-%m')`; when the frame has no
parsable period (all NaT, or no rows) `min()` is NaT and `strftime`
raises, so control jumps to the `except` branch, which records a single
`検証エラー` issue and marks the report invalid — the quality checks are
then skipped.  Otherwise the three quality checks run in order and
`is_valid` ends up false exactly when some issue was appended. -/
def validateData (df : List Row) : ValidationReport :=
  if df.all (fun r => r.period.isNone) then
    { is_valid := false, issues := ["検証エラー: NaTType does not support strftime"] }
  else
    let i1 := if df.any (fun r => negCell r.sales) then [salesNegMsg] else []
    let i2 := if df.any (fun r => negCell r.profit) then [profitNegMsg] else []
    let i3 := if df.any profitMismatch then [consistencyMsg] else []
    let issues := i1 ++ i2 ++ i3
    { is_valid := issues.isEmpty, issues := issues }

/-- Date-range stage of `FilterManager.apply_filters`: comparisons of a
NaT period with a date are `False`, so the row is dropped. -/
def dateOk (s e : Nat) (r : Row) : Bool :=
  match r.period with
  | some p => decide (s ≤ p) && decide (p ≤ e)
  | none => false

/-- `FilterManager.apply_filters` (src/utils.py): optional inclusive date
range plus exact-match filters on staff, product and customer; a filter
value of `None`/empty/`'全て'` leaves the frame unchanged.  Each active
stage keeps rows in their input order. -/
def applyFilters (df : List Row) (dateRange : Option (Nat × Nat))
    (staff product customer : Option String) : List Row :=
  let d1 := match dateRange with
    | some (s, e) => df.filter (dateOk s e)
    | none => df
  let d2 := match staff with
    | some s => if s ≠ "" ∧ s ≠ "全て" then d1.filter (fun r => r.staff == s) else d1
    | none => d1
  let d3 := match product with
    | some s => if s ≠ "" ∧ s ≠ "全て" then d2.filter (fun r => r.product == s) else d2
    | none => d2
  let d4 := match customer with
    | some s => if s ≠ "" ∧ s ≠ "全て" then d3.filter (fun r => r.customer == s) else d3
    | none => d3
  d4

/-- `売上金額` cell as summed by pandas (`sum` skips NaN). -/
def salesVal (r : Row) : Rat := r.sales.getD 0

/-- `粗利金額` cell as summed by pandas (`sum` skips NaN). -/
def profitVal (r : Row) : Rat := r.profit.getD 0

/-- `filtered_df['売上金額'].sum()`. -/
def totalSales (df : List Row) : Rat := (df.map salesVal).sum

/-- `filtered_df['粗利金額'].sum()`. -/
def totalProfit (df : List Row) : Rat := (df.map profitVal).sum

/-- The distinct non-null months of the frame, in ascending order: the
group keys of `groupby('売上年月')` (which sorts keys and drops NaT). -/
def monthlyKeys (df : List Row) : List Nat :=
  List.insertionSort (· ≤ ·) ((df.filterMap (fun r => r.period)).dedup)

/-- `groupby('売上年月')['売上金額'].sum()` for one month group. -/
def monthSalesSum (df : List Row) (m : Nat) : Rat :=
  ((df.filter (fun r => r.period == some m)).map salesVal).sum

/-- `groupby('売上年月')['粗利金額'].sum()` for one month group. -/
def monthProfitSum (df : List Row) (m : Nat) : Rat :=
  ((df.filter (fun r => r.period == some m)).map profitVal).sum

/-- The `売上金額` column of `monthly_data` (src/app.py lines 136–139):
monthly sales totals indexed by ascending month. -/
def monthlySales (df : List Row) : List Rat :=
  (monthlyKeys df).map (monthSalesSum df)

/-- The sum of the `売上金額` column of `monthly_data`. -/
def monthlyTotalSales (df : List Row) : Rat := (monthlySales df).sum

/-- Tail of `Series.pct_change()`: element `i+1` is
`(s[i+1] - s[i]) / s[i]` under pandas division. -/
def pctChangeAux (prev : Rat) : List Rat → List PVal
  | [] => []
  | c :: rest => pandasDiv (c - prev) prev :: pctChangeAux c rest

/-- `Series.pct_change()`: NaN for the first element, then the relative
change against the immediately preceding element. -/
def pctChange : List Rat → List PVal
  | [] => []
  | x :: xs => .nan :: pctChangeAux x xs

/-- `monthly_data['昨対比_売上'] = monthly_data['売上金額'].pct_change() * 100`
(src/app.py lines 141–143 and src/pages/01_担当者分析.py lines 86–88). -/
def salesPctChange (df : List Row) : List PVal :=
  (pctChange (monthlySales df)).map pmul100

/-- Sum of a group of an optional-valued column, as pandas `groupby(...)
.agg('sum')` computes it: rows whose key is null are not in any group,
NaN cells are skipped, an all-NaN group sums to 0. -/
def aggSum {κ : Type} [DecidableEq κ] (key : Row → Option κ)
    (val : Row → Option Rat) (df : List Row) (k : κ) : Rat :=
  ((df.filter (fun r => key r == some k)).map (fun r => (val r).getD 0)).sum

/-- The `総売上` cell of one group of `analyze_data_for_context`
(src/pages/03_AIアシスタント.py): the group's sales sum, passed through
`.round(0)` for the staff/product tables (`rounded = true`) and left raw
for the monthly/customer tables (`rounded = false`). -/
def groupTotalSales {κ : Type} [DecidableEq κ] (rounded : Bool)
    (key : Row → Option κ) (df : List Row) (k : κ) : Rat :=
  if rounded then roundTo 0 (aggSum key (fun r => r.sales) df k)
  else aggSum key (fun r => r.sales) df k

/-- The `総粗利`/`粗利金額` cell of one group, with the same optional
`.round(0)`. -/
def groupTotalProfit {κ : Type} [DecidableEq κ] (rounded : Bool)
    (key : Row → Option κ) (df : List Row) (k : κ) : Rat :=
  if rounded then roundTo 0 (aggSum key (fun r => r.profit) df k)
  else aggSum key (fun r => r.profit) df k

/-- The `粗利率` cell of one group of `analyze_data_for_context`:
`(総粗利 / 総売上 * 100).round(1)`, with no guard against a zero
denominator. -/
def groupProfitRate {κ : Type} [DecidableEq κ] (rounded : Bool)
    (key : Row → Option κ) (df : List Row) (k : κ) : PVal :=
  pround 1 (pmul100 (pandasDiv (groupTotalProfit rounded key df k)
                               (groupTotalSales rounded key df k)))

/-- Per-staff profit rate of the digest's staff table (round(0) applied
to the aggregated sums first). -/
def staffProfitRate (df : List Row) (s : String) : PVal :=
  groupProfitRate true (fun r => some r.staff) df s

/-- Per-staff `総売上` of the digest's staff table. -/
def staffTotalSales (df : List Row) (s : String) : Rat :=
  groupTotalSales true (fun r => some r.staff) df s

/-- Per-month profit rate of the digest's monthly-trend table (sums are
not rounded there). -/
def monthlyProfitRate (df : List Row) (m : Nat) : PVal :=
  groupProfitRate false (fun r => r.period) df m

/-- Per-customer profit rate of the digest's customer table. -/
def customerProfitRate (df : List Row) (c : String) : PVal :=
  groupProfitRate false (fun r => some r.customer) df c

/-- The overall profit rate of `ChartManager.create_kpi_cards`
(src/utils.py line 151) and of `basic_stats['avg_profit_rate']`
(src/pages/03_AIアシスタント.py line 96): the division is guarded by
`if total_sales > 0 else 0`. -/
def kpiProfitRate (df : List Row) : Rat :=
  if 0 < totalSales df then totalProfit df / totalSales df * 100 else 0

/-- The distinct staff keys of the frame (`groupby('担当者')` group keys). -/
def staffKeys (df : List Row) : List String := (df.map (fun r => r.staff)).dedup

/-- The distinct product keys of the frame. -/
def productKeys (df : List Row) : List String := (df.map (fun r => r.product)).dedup

/-- The distinct customer keys of the frame. -/
def customerKeys (df : List Row) : List String := (df.map (fun r => r.customer)).dedup

/-- `sort_values('総売上'/'売上金額', ascending=False)` on a keyed table:
the group keys ordered by descending group sales sum. -/
def rankBySales {κ : Type} [DecidableEq κ] (key : Row → Option κ)
    (df : List Row) (ks : List κ) : List κ :=
  List.insertionSort
    (fun a b => aggSum key (fun r => r.sales) df b ≤ aggSum key (fun r => r.sales) df a) ks

/-- Row keys of the 【担当者別売上ランキング】 digest section:
`analysis['staff_analysis'].head()` — capped at 5. -/
def staffSection (df : List Row) : List String :=
  (rankBySales (fun r => some r.staff) df (staffKeys df)).take 5

/-- Row keys of the 【商品別売上ランキング】 digest section: capped at 5. -/
def productSection (df : List Row) : List String :=
  (rankBySales (fun r => some r.product) df (productKeys df)).take 5

/-- Row keys of the 【月別トレンド】 digest section:
`analysis['monthly_trend'].to_string()` — the whole monthly table, one row
per distinct month, with no `head` applied. -/
def monthlySection (df : List Row) : List Nat := monthlyKeys df

/-- Row keys of the 【主要顧客】 digest section: `customer_analysis` is
built with `.head(10)` and the digest prints `.head()` of that — 5 rows. -/
def customerSection (df : List Row) : List String :=
  ((rankBySales (fun r => some r.customer) df (customerKeys df)).take 10).take 5

/-- The whole-dataset statistics printed by the fallback branch of
`call_llm_api`'s `data_summary` (src/pages/03_AIアシスタント.py
lines 172–182). -/
structure FallbackStats where
  totalRecords : Nat
  dateFrom : Nat
  dateTo : Nat
  staffCount : Nat
  productCount : Nat
  customerCount : Nat
  totalSalesAmt : Rat
  totalProfitAmt : Rat
  avgProfitRate : PVal
deriving DecidableEq, Repr

/-- The `data_summary` block built inside `call_llm_api`: either the
detailed digest of the non-empty filtered frame, or the whole-dataset
fallback, or — when an exception escapes the construction (NaT
`strftime` on a frame without parsable periods) — the error message
returned by the surrounding `except` handler. -/
inductive SummaryResult where
  | detailed (records : Nat) (tSales tProfit : Rat) (avgRate : Rat)
      (staffRows productRows customerRows : List String) (monthRows : List Nat)
  | fallback (s : FallbackStats)
  | errorMsg
deriving DecidableEq, Repr

/-- Is the result the whole-dataset fallback block? -/
def SummaryResult.isFallback : SummaryResult → Bool
  | .fallback _ => true
  | _ => false

/-- The whole-dataset fallback of `call_llm_api`: record count, date
range (min/max of `売上年月`, whose `strftime` raises when no period is
parsable), entity counts, totals, and the unguarded average profit rate.
The raise is caught by `call_llm_api`'s `except Exception`, which returns
an error message instead of a digest. -/
def fallbackSummary (df : List Row) : SummaryResult :=
  match (df.filterMap (fun r => r.period)) with
  | [] => .errorMsg
  | p :: ps =>
    .fallback
      { totalRecords := df.length
        dateFrom := ps.foldl min p
        dateTo := ps.foldl max p
        staffCount := (staffKeys df).length
        productCount := (productKeys df).length
        customerCount := (customerKeys df).length
        totalSalesAmt := totalSales df
        totalProfitAmt := totalProfit df
        avgProfitRate := pmul100 (pandasDiv (totalProfit df) (totalSales df)) }

/-- The `data_summary` dispatch of `call_llm_api` (src/pages/03_AIアシスタント.py
lines 147–182): `if filtered_df is not None and len(filtered_df) > 0` use
the detailed analysis of the view, otherwise fall back to the
whole-dataset summary over the module-level `df`. -/
def dataSummary (view : Option (List Row)) (df : List Row) : SummaryResult :=
  match view with
  | some v =>
    if v.length > 0 then
      .detailed v.length (totalSales v) (totalProfit v) (kpiProfitRate v)
        (staffSection v) (productSection v) (customerSection v) (monthlySection v)
    else fallbackSummary df
  | none => fallbackSummary df

/-- C5: loading an input that misses at least one of the seven required
columns fails as a fatal schema error — the caller gets back an empty
frame plus an `st.error` report, and nothing is raised past the handler
(`loadData` is a total function). -/
theorem C5_missing_column_fatal (t : RawTable)
    (h : ∃ c ∈ requiredColumns, t.cols.contains c = false) :
    (loadData t).data = [] ∧ (loadData t).error.isSome = true := by
  obtain ⟨c, hc, hnc⟩ := h
  have hcond : ∃ x ∈ requiredColumns, x ∉ t.cols := by
    refine ⟨c, hc, ?_⟩
    simpa using hnc
  simp [loadData, hcond]

/-- C5 witness: a table whose only column is `foo` misses required
columns, so loading it yields the empty frame and an error. -/
theorem C5_missing_column_fatal_witness :
    (loadData ⟨["foo"], []⟩).data = [] ∧ (loadData ⟨["foo"], []⟩).error.isSome = true :=
  C5_missing_column_fatal ⟨["foo"], []⟩ (by decide)

/-- C9 concrete input: a table with all required columns whose single
row has the unparsable period `bad`. -/
def c9table : RawTable :=
  ⟨requiredColumns,
   [[("売上年月", "bad"), ("商品名", "P"), ("担当者", "S"), ("顧客名", "C"),
     ("売上金額", "100"), ("仕入れ金額", "60"), ("粗利金額", "40")]]⟩

/-- C9 counterexample: on an input whose every period is unparsable the
claim demands a fatal SchemaError with no Dataset, but `load_data`
succeeds (no error) and returns the row with a null period. -/
theorem C9_all_unparsable_not_fatal :
    (loadData c9table).error = none ∧
    (loadData c9table).data =
      [{ period := none, product := "P", staff := "S", customer := "C",
         sales := some 100, cost := some 60, profit := some 40 }] ∧
    (loadData c9table).nullWarned = true := by
  decide

/-- C9 amended: when every required column is present, loading never
fails — unparsable periods become null, every row is kept (the frame has
exactly one record per input row), and any null period fires the
null-count warning instead of dropping or aborting. -/
theorem C9_unparsable_period_kept (t : RawTable)
    (h : ∀ c ∈ requiredColumns, t.cols.contains c = true) :
    (loadData t).error = none ∧
    (loadData t).data.length = t.rows.length ∧
    ((loadData t).data.any (fun r => r.period.isNone) = true →
      (loadData t).nullWarned = true) := by
  have hcond : ¬ ∃ x ∈ requiredColumns, x ∉ t.cols := by
    push_neg
    intro c hc
    simpa using h c hc
  refine ⟨?_, ?_, ?_⟩
  · simp [loadData, hcond]
  · simp [loadData, hcond]
  · intro hany
    simp [loadData, hcond] at hany ⊢
    obtain ⟨a, ha, hp⟩ := hany
    exact ⟨a, ha, Or.inl (Or.inl (Or.inl hp))⟩

/-- C9 witness: the all-required-columns table with one unparsable
period loads without error, keeps its single row, and warns. -/
theorem C9_unparsable_period_kept_witness :
    (loadData c9table).error = none ∧
    (loadData c9table).data.length = c9table.rows.length ∧
    ((loadData c9table).data.any (fun r => r.period.isNone) = true →
      (loadData c9table).nullWarned = true) :=
  C9_unparsable_period_kept c9table (by decide)

/-- C10: the validation report's `is_valid` flag is true exactly when its
issues list is empty, and any non-fatal data-quality finding (negative
sales, negative gross profit, or a profit-consistency mismatch) forces
`is_valid = false` — while `validate_data` still only returns a report,
leaving the frame itself usable. -/
theorem C10_isValid_iff_no_issues (df : List Row) :
    ((validateData df).is_valid = true ↔ (validateData df).issues = []) ∧
    (df.any (fun r => negCell r.sales) = true ∨
     df.any (fun r => negCell r.profit) = true ∨
     df.any profitMismatch = true →
      (validateData df).is_valid = false) := by
  unfold validateData
  by_cases hall : df.all (fun r => r.period.isNone)
  · simp [hall]
  · simp only [hall, if_false, Bool.false_eq_true, reduceIte]
    constructor
    · simp [List.isEmpty_iff]
    · intro hfind
      rcases hfind with hf | hf | hf <;>
        simp [hf, List.isEmpty_iff]

/-- C10 witness: a single row with a negative sales amount yields an
invalid report. -/
theorem C10_isValid_iff_no_issues_witness :
    (validateData [{ period := some 3, product := "P", staff := "S", customer := "C",
                     sales := some (-5), cost := some 0, profit := some (-5) }]).is_valid = false :=
  (C10_isValid_iff_no_issues _).2 (Or.inl (by decide))

/-- C6 concrete input: one row whose three numeric fields are present and
inconsistent (expected profit 200, recorded 150), but whose period is
null. -/
def c6row : Row :=
  { period := none, product := "P", staff := "S", customer := "C",
    sales := some 500, cost := some 300, profit := some 150 }

/-- C6 counterexample: the row violates the profit-consistency tolerance,
yet `validate_data` reports no profit-consistency issue at all, because
the summary's `strftime` on the all-NaT period column raises first and
the `except` branch replaces every quality check with a single
`検証エラー` issue. -/
theorem C6_mismatch_issue_missing :
    profitMismatch c6row = true ∧
    (validateData [c6row]).issues.count consistencyMsg = 0 := by
  decide

/-- C6 amended: on a frame with at least one parsable period, a
profit-consistency violation in any row yields exactly one aggregated
profit-consistency issue (never one per offending row) and marks the
report invalid; the frame itself is untouched, so the data stays usable. -/
theorem C6_mismatch_single_issue (df : List Row)
    (hp : ∃ r ∈ df, r.period.isSome = true)
    (hm : ∃ r ∈ df, profitMismatch r = true) :
    (validateData df).issues.count consistencyMsg = 1 ∧
    (validateData df).is_valid = false := by
  have hall : ¬ df.all (fun r => r.period.isNone) = true := by
    obtain ⟨r, hr, hs⟩ := hp
    simp only [List.all_eq_true]
    intro hc
    have := hc r hr
    simp [Option.isNone_iff_eq_none] at this
    simp [this] at hs
  have hany : df.any profitMismatch = true := List.any_eq_true.mpr hm
  unfold validateData
  simp only [hall, if_false, Bool.false_eq_true, reduceIte, hany, if_true]
  constructor
  · by_cases h1 : df.any (fun r => negCell r.sales) <;>
      by_cases h2 : df.any (fun r => negCell r.profit) <;>
        simp [h1, h2, List.count_cons, List.count_nil, consistencyMsg,
              salesNegMsg, profitNegMsg]
  · by_cases h1 : df.any (fun r => negCell r.sales) <;>
      by_cases h2 : df.any (fun r => negCell r.profit) <;>
        simp [h1, h2, List.isEmpty_iff]

/-- C6 witness: a frame whose single row has a parsable period and the
inconsistent amounts 500/300/150 produces exactly one consistency issue
and an invalid report. -/
theorem C6_mismatch_single_issue_witness :
    (validateData [{ period := some 3, product := "P", staff := "S", customer := "C",
                     sales := some 500, cost := some 300, profit := some 150 }]).issues.count
        consistencyMsg = 1 ∧
    (validateData [{ period := some 3, product := "P", staff := "S", customer := "C",
                     sales := some 500, cost := some 300, profit := some 150 }]).is_valid = false :=
  C6_mismatch_single_issue _ (by decide) (by decide)

/-- C1 concrete input: a single zero-amount transaction for staff
`StaffA`, so the staff group's `総売上` is 0. -/
def c1df : List Row :=
  [{ period := some 5, product := "P", staff := "StaffA", customer := "C",
     sales := some 0, cost := some 0, profit := some 0 }]

/-- C1 counterexample: the summarizer's per-staff profit rate is NOT 0
when the group's total sales are 0 — the unguarded pandas division
`総粗利 / 総売上 * 100` yields NaN (here 0/0), never the claimed 0. -/
theorem C1_staff_rate_not_zero :
    staffTotalSales c1df "StaffA" = 0 ∧
    staffProfitRate c1df "StaffA" = PVal.nan ∧
    staffProfitRate c1df "StaffA" ≠ PVal.fin 0 := by
  decide

/-- C1 amended: the overall KPI/basic-stats profit rate is guarded —
it is 0 whenever total sales are 0 (indeed whenever they are not
positive) and equals `totalProfit/totalSales*100` when positive — but a
per-group rate of the summarizer (staff, product, month and customer
groups alike) is the unguarded `totalProfit/totalSales*100`: a non-finite
value (NaN or ±∞, never 0) when the group's `総売上` is 0, and the
rounded quotient otherwise. -/
theorem C1_profit_rate_guards {κ : Type} [DecidableEq κ] (df : List Row)
    (rounded : Bool) (key : Row → Option κ) (k : κ) :
    (totalSales df = 0 → kpiProfitRate df = 0) ∧
    (0 < totalSales df → kpiProfitRate df = totalProfit df / totalSales df * 100) ∧
    (groupTotalSales rounded key df k = 0 →
      (groupProfitRate rounded key df k).isFinite = false) ∧
    (groupTotalSales rounded key df k ≠ 0 →
      groupProfitRate rounded key df k =
        PVal.fin (roundTo 1
          (groupTotalProfit rounded key df k / groupTotalSales rounded key df k * 100))) := by
  refine ⟨?_, ?_, ?_, ?_⟩
  · intro h
    simp [kpiProfitRate, h]
  · intro h
    simp [kpiProfitRate, h]
  · intro h
    unfold groupProfitRate pandasDiv
    rw [h]
    rcases lt_trichotomy (0 : Rat) (groupTotalProfit rounded key df k) with hp | hp | hp
    · simp [hp, pmul100, pround, PVal.isFinite, not_lt.mpr (le_of_lt hp)]
    · simp [← hp, pmul100, pround, PVal.isFinite]
    · simp [hp, not_lt.mpr (le_of_lt hp), asymm hp, pmul100, pround, PVal.isFinite]
  · intro h
    simp [groupProfitRate, pandasDiv, h, pmul100, pround]

/-- C1 witness: on the zero-sales staff group the amended theorem gives a
non-finite (NaN/±∞) rate. -/
theorem C1_profit_rate_guards_witness :
    (groupProfitRate true (fun r => some r.staff) c1df "StaffA").isFinite = false :=
  (C1_profit_rate_guards c1df true (fun r => some r.staff) "StaffA").2.2.1 (by decide)

/-- C8 counterexample: with an empty whole dataset, an empty filtered
view does NOT fall back to whole-dataset statistics — building the
fallback raises (`strftime` on NaT) and the handler returns an error
message instead of a digest. -/
theorem C8_empty_dataset_no_fallback :
    SummaryResult.isFallback (dataSummary (some []) []) = false ∧
    dataSummary (some []) [] = SummaryResult.errorMsg := by
  decide

/-- C8 amended: whenever the whole dataset has at least one parsable
period, an empty filtered view (or an absent one) makes `call_llm_api`
fall back to the whole-dataset summary statistics — record count, date
range, staff/product/customer counts, total sales, total profit and the
average profit rate — never to an empty digest, and without raising
(`dataSummary` is total). -/
theorem C8_empty_view_fallback (df : List Row) (view : Option (List Row))
    (p : Nat) (ps : List Nat)
    (hv : view = some [] ∨ view = none)
    (hp : df.filterMap (fun r => r.period) = p :: ps) :
    dataSummary view df = SummaryResult.fallback
      { totalRecords := df.length
        dateFrom := ps.foldl min p
        dateTo := ps.foldl max p
        staffCount := (staffKeys df).length
        productCount := (productKeys df).length
        customerCount := (customerKeys df).length
        totalSalesAmt := totalSales df
        totalProfitAmt := totalProfit df
        avgProfitRate := pmul100 (pandasDiv (totalProfit df) (totalSales df)) } := by
  rcases hv with hv | hv <;> subst hv <;>
    simp [dataSummary, fallbackSummary, hp]

/-- C8 witness: a one-row dataset with a parsable period plus the empty
view produces the whole-dataset fallback digest. -/
theorem C8_empty_view_fallback_witness :
    dataSummary (some [])
        [{ period := some 7, product := "P", staff := "S", customer := "C",
           sales := some 1000, cost := some 600, profit := some 400 }] =
      SummaryResult.fallback
        { totalRecords := 1, dateFrom := ([] : List Nat).foldl min 7,
          dateTo := ([] : List Nat).foldl max 7,
          staffCount := 1, productCount := 1, customerCount := 1,
          totalSalesAmt :=
            totalSales [{ period := some 7, product := "P", staff := "S", customer := "C",
                          sales := some 1000, cost := some 600, profit := some 400 }],
          totalProfitAmt :=
            totalProfit [{ period := some 7, product := "P", staff := "S", customer := "C",
                           sales := some 1000, cost := some 600, profit := some 400 }],
          avgProfitRate :=
            pmul100 (pandasDiv
              (totalProfit [{ period := some 7, product := "P", staff := "S", customer := "C",
                              sales := some 1000, cost := some 600, profit := some 400 }])
              (totalSales [{ period := some 7, product := "P", staff := "S", customer := "C",
                             sales := some 1000, cost := some 600, profit := some 400 }])) } := by
  have h := C8_empty_view_fallback
    [{ period := some 7, product := "P", staff := "S", customer := "C",
       sales := some 1000, cost := some 600, profit := some 400 }]
    (some []) 7 [] (Or.inl rfl) (by decide)
  simpa using h

/-- C7 concrete input: eleven rows in eleven distinct months. -/
def c7df : List Row :=
  (List.range 11).map (fun i =>
    { period := some i, product := "P", staff := "S", customer := "C",
      sales := some 10, cost := some 5, profit := some 5 })

/-- C7 counterexample: the 【月別トレンド】 section of the digest is
printed with `.to_string()` and no `head`, so with eleven distinct months
it holds eleven rows — more than the claimed fixed cap of 5–10. -/
theorem C7_monthly_section_unbounded :
    ¬ ((monthlySection c7df).length ≤ 10) := by
  decide

/-- C7 amended: the staff, product and customer ranking sections are
independently capped at 5 rows (`head()`, and `head(10)` then `head()`
for customers), but the monthly-trend section is NOT capped: it has
exactly one row per distinct non-null month of the view, so the digest
grows without bound in the number of months. -/
theorem C7_section_caps (df : List Row) :
    (staffSection df).length ≤ 5 ∧
    (productSection df).length ≤ 5 ∧
    (customerSection df).length ≤ 5 ∧
    (monthlySection df).length = ((df.filterMap (fun r => r.period)).dedup).length := by
  refine ⟨?_, ?_, ?_, ?_⟩
  · exact List.length_take_le 5 (rankBySales (fun r => some r.staff) df (staffKeys df))
  · exact List.length_take_le 5 (rankBySales (fun r => some r.product) df (productKeys df))
  · exact List.length_take_le 5 _
  · simp [monthlySection, monthlyKeys, List.length_insertionSort]

/-- Sum of a constant-zero map. -/
theorem sum_map_const_zero {α : Type} (K : List α) :
    (K.map (fun _ => (0 : Rat))).sum = 0 := by
  induction K with
  | nil => rfl
  | cons k K ih => simp [ih]

/-- Sums of pointwise sums split. -/
theorem sum_map_add {α : Type} (K : List α) (f g : α → Rat) :
    (K.map (fun m => f m + g m)).sum = (K.map f).sum + (K.map g).sum := by
  induction K with
  | nil => simp
  | cons k K ih =>
    simp only [List.map_cons, List.sum_cons, ih]
    ring

/-- Over a duplicate-free key list containing `p`, the sum of the
indicator map picking `v` at `p` is `v`. -/
theorem sum_map_indicator (v : Rat) (p : Nat) : ∀ (K : List Nat), K.Nodup → p ∈ K →
    (K.map (fun m => if p = m then v else 0)).sum = v := by
  intro K
  induction K with
  | nil => intro _ h; cases h
  | cons k K ih =>
    intro hnd hmem
    rcases List.mem_cons.mp hmem with h | h
    · subst h
      have hnotin : p ∉ K := (List.nodup_cons.mp hnd).1
      have hz : (K.map (fun m => if p = m then v else 0)).sum = 0 := by
        apply List.sum_eq_zero
        intro x hx
        obtain ⟨m, hm, hxe⟩ := List.mem_map.mp hx
        have hne : p ≠ m := fun he => hnotin (he ▸ hm)
        simp [← hxe, hne]
      simp [hz]
    · have hnd' := (List.nodup_cons.mp hnd).2
      have hpk : p ≠ k := fun he => ((List.nodup_cons.mp hnd).1 (he ▸ h))
      simp only [List.map_cons, List.sum_cons]
      rw [ih hnd' h]
      simp [hpk]

/-- Unfolding one row of a month-group sum. -/
theorem monthSalesSum_cons (r : Row) (t : List Row) (m : Nat) :
    monthSalesSum (r :: t) m =
      (if r.period = some m then salesVal r else 0) + monthSalesSum t m := by
  by_cases h : r.period = some m <;> simp [monthSalesSum, h, salesVal]

/-- Partition: summing the per-month group sums over any duplicate-free
key list covering all months present equals the sum of `売上金額` over
the rows with a non-null period. -/
theorem keyed_sum_eq (K : List Nat) (hK : K.Nodup) :
    ∀ df : List Row, (∀ r ∈ df, ∀ m, r.period = some m → m ∈ K) →
      (K.map (fun m => monthSalesSum df m)).sum =
        ((df.filter (fun r => r.period.isSome)).map salesVal).sum := by
  intro df
  induction df with
  | nil => intro _; simp [monthSalesSum, sum_map_const_zero]
  | cons r t ih =>
    intro hcov
    have hcovt : ∀ x ∈ t, ∀ m, x.period = some m → m ∈ K :=
      fun x hx => hcov x (List.mem_cons_of_mem _ hx)
    simp only [monthSalesSum_cons]
    rw [sum_map_add K (fun m => if r.period = some m then salesVal r else 0)
        (fun m => monthSalesSum t m), ih hcovt]
    cases hper : r.period with
    | none =>
      have hzero : (K.map (fun m => if (none : Option Nat) = some m
          then salesVal r else 0)).sum = 0 := by
        have he : (fun m : Nat => if (none : Option Nat) = some m then salesVal r else 0) =
            (fun _ : Nat => (0 : Rat)) := by
          funext m
          simp
        rw [he, sum_map_const_zero]
      rw [hzero]
      simp [hper]
    | some p =>
      have hmem : p ∈ K := hcov r (List.mem_cons_self r t) p hper
      have hone : (K.map (fun m => if (some p : Option Nat) = some m
          then salesVal r else 0)).sum = salesVal r := by
        have he : (fun m : Nat => if (some p : Option Nat) = some m then salesVal r else 0) =
            (fun m : Nat => if p = m then salesVal r else 0) := by
          funext m
          simp
        rw [he, sum_map_indicator (salesVal r) p K hK hmem]
      rw [hone]
      simp [hper]

/-- C2 concrete input: one row with an unparsable (null) period and a
sales amount of 100. -/
def c2df : List Row :=
  [{ period := none, product := "A", staff := "B", customer := "C",
     sales := some 100, cost := some 50, profit := some 50 }]

/-- C2 counterexample: `groupby('売上年月')` silently drops NaT keys, so
on a dataset whose only row has a null period the monthly aggregation
sums to 0 while the dataset's sales sum to 100 — totals are NOT
preserved for datasets containing null periods. -/
theorem C2_null_period_breaks_totals :
    monthlyTotalSales c2df ≠ totalSales c2df := by
  decide

/-- C2 amended: the monthly aggregation preserves totals over the rows
with a parsable period — for every dataset, the sum of `totalSales` over
the monthly aggregation equals the sum of `salesAmount` over the rows
whose period is non-null (negative amounts included); rows with a null
period are dropped by the grouping. -/
theorem C2_totals_preserved (df : List Row) :
    monthlyTotalSales df =
      ((df.filter (fun r => r.period.isSome)).map salesVal).sum := by
  have hnd : (monthlyKeys df).Nodup := by
    have hperm := List.perm_insertionSort (α := Nat) (· ≤ ·)
      ((df.filterMap (fun r => r.period)).dedup)
    exact hperm.nodup_iff.mpr (List.nodup_dedup _)
  have hcov : ∀ r ∈ df, ∀ m, r.period = some m → m ∈ monthlyKeys df := by
    intro r hr m hm
    have h1 : m ∈ df.filterMap (fun r => r.period) :=
      List.mem_filterMap.mpr ⟨r, hr, hm⟩
    have h2 : m ∈ (df.filterMap (fun r => r.period)).dedup :=
      List.mem_dedup.mpr h1
    have hperm := List.perm_insertionSort (α := Nat) (· ≤ ·)
      ((df.filterMap (fun r => r.period)).dedup)
    exact (hperm.mem_iff).mpr h2
  exact keyed_sum_eq (monthlyKeys df) hnd df hcov

/-- The date-range stage as a row predicate (no range = keep all). -/
def datePred (dateRange : Option (Nat × Nat)) (r : Row) : Bool :=
  match dateRange with
  | some (s, e) => dateOk s e r
  | none => true

/-- An exact-match stage as a row predicate: active only when a value is
selected and it is neither empty nor the `'全て'` sentinel. -/
def selPred (sel : Option String) (proj : Row → String) (r : Row) : Bool :=
  match sel with
  | some s => if s ≠ "" ∧ s ≠ "全て" then proj r == s else true
  | none => true

/-- The whole filter as one predicate, nested the way the four
sequential stages compose. -/
def fullPred (dateRange : Option (Nat × Nat)) (staff product customer : Option String)
    (r : Row) : Bool :=
  selPred customer (fun r => r.customer) r &&
    (selPred product (fun r => r.product) r &&
      (selPred staff (fun r => r.staff) r && datePred dateRange r))

/-- `apply_filters` equals a single pass with the conjunction of its four
stage predicates. -/
theorem applyFilters_eq_filter (df : List Row) (dateRange : Option (Nat × Nat))
    (staff product customer : Option String) :
    applyFilters df dateRange staff product customer =
      df.filter (fullPred dateRange staff product customer) := by
  unfold applyFilters fullPred
  have h1 : (match dateRange with
      | some (s, e) => df.filter (dateOk s e)
      | none => df) = df.filter (datePred dateRange) := by
    cases dateRange with
    | none =>
      symm
      apply List.filter_eq_self.mpr
      intro a _
      rfl
    | some p =>
      cases p with
      | mk s e => rfl
  rw [h1]
  cases staff with
  | none =>
    cases product with
    | none =>
      cases customer with
      | none => simp [selPred, List.filter_filter]
      | some c =>
        by_cases hc : c ≠ "" ∧ c ≠ "全て" <;>
          simp [selPred, hc, List.filter_filter]
    | some pr =>
      by_cases hpr : pr ≠ "" ∧ pr ≠ "全て" <;>
        cases customer with
        | none => simp [selPred, hpr, List.filter_filter]
        | some c =>
          by_cases hc : c ≠ "" ∧ c ≠ "全て" <;>
            simp [selPred, hpr, hc, List.filter_filter]
  | some st =>
    by_cases hst : st ≠ "" ∧ st ≠ "全て" <;>
      cases product with
      | none =>
        cases customer with
        | none => simp [selPred, hst, List.filter_filter]
        | some c =>
          by_cases hc : c ≠ "" ∧ c ≠ "全て" <;>
            simp [selPred, hst, hc, List.filter_filter]
      | some pr =>
        by_cases hpr : pr ≠ "" ∧ pr ≠ "全て" <;>
          cases customer with
          | none => simp [selPred, hst, hpr, List.filter_filter]
          | some c =>
            by_cases hc : c ≠ "" ∧ c ≠ "全て" <;>
              simp [selPred, hst, hpr, hc, List.filter_filter]

/-- C3: `apply_filters` is idempotent for every dataset and every filter
combination (any of the four constraints present or absent) — applying
the same filters a second time returns the very same list, row order
included. -/
theorem C3_apply_filters_idempotent (df : List Row) (dateRange : Option (Nat × Nat))
    (staff product customer : Option String) :
    applyFilters (applyFilters df dateRange staff product customer)
        dateRange staff product customer =
      applyFilters df dateRange staff product customer := by
  rw [applyFilters_eq_filter, applyFilters_eq_filter, List.filter_filter]
  apply List.filter_congr
  intro r _
  exact Bool.and_self _

/-- Element `i` of the `pct_change` tail pairs element `i` of the shifted
list with element `i` of the original tail. -/
theorem pctChangeAux_getElem (xs : List Rat) : ∀ (p : Rat) (i : Nat) (prev curr : Rat),
    (p :: xs)[i]? = some prev → xs[i]? = some curr →
    (pctChangeAux p xs)[i]? = some (pandasDiv (curr - prev) prev) := by
  induction xs with
  | nil =>
    intro p i prev curr _ h2
    simp at h2
  | cons c rest ih =>
    intro p i prev curr h1 h2
    cases i with
    | zero =>
      simp only [List.getElem?_cons_zero, Option.some.injEq] at h1 h2
      subst h1
      subst h2
      simp [pctChangeAux]
    | succ j =>
      simp only [List.getElem?_cons_succ] at h1 h2
      simpa [pctChangeAux] using ih c j prev curr h1 h2

/-- `pct_change` at position `i+1` is the pandas relative change from
element `i` to element `i+1`. -/
theorem pctChange_getElem (s : List Rat) (i : Nat) (prev curr : Rat)
    (h1 : s[i]? = some prev) (h2 : s[i + 1]? = some curr) :
    (pctChange s)[i + 1]? = some (pandasDiv (curr - prev) prev) := by
  cases s with
  | nil => simp at h1
  | cons x xs =>
    simp only [pctChange, List.getElem?_cons_succ]
    exact pctChangeAux_getElem xs x i prev curr h1 (by simpa using h2)

/-- C4 concrete input: two months with sales 0 then 100. -/
def c4df : List Row :=
  [{ period := some 1, product := "P", staff := "S", customer := "C",
     sales := some 0, cost := some 0, profit := some 0 },
   { period := some 2, product := "P", staff := "S", customer := "C",
     sales := some 100, cost := some 40, profit := some 60 }]

/-- C4 counterexample: when the previous month's totalSales is 0 and the
current month's is 100, `pct_change() * 100` yields +∞, not the claimed
null (NaN) — pandas divides by zero and produces an infinity. -/
theorem C4_zero_prev_gives_inf :
    (salesPctChange c4df)[1]? = some PVal.pinf ∧ PVal.pinf ≠ PVal.nan := by
  decide

/-- C4 amended: in every monthly series, the first period's
period-over-period sales change is NaN (null); each later one equals
`(curr - prev) / prev * 100` whenever the previous total is nonzero; and
when the previous total is 0 the value is +∞ for a positive current
total, -∞ for a negative one, and NaN only when the current total is
also 0 — never a divide-by-zero fault. -/
theorem C4_pct_change_semantics (df : List Row) :
    (monthlySales df ≠ [] → (salesPctChange df)[0]? = some PVal.nan) ∧
    (∀ i prev curr, (monthlySales df)[i]? = some prev →
      (monthlySales df)[i + 1]? = some curr →
      (salesPctChange df)[i + 1]? = some
        (if prev = 0 then
          (if 0 < curr then PVal.pinf else if curr < 0 then PVal.ninf else PVal.nan)
         else PVal.fin ((curr - prev) / prev * 100))) := by
  constructor
  · intro h
    cases hs : monthlySales df with
    | nil => exact absurd hs h
    | cons x xs => simp [salesPctChange, hs, pctChange, pmul100]
  · intro i prev curr h1 h2
    have h3 := pctChange_getElem (monthlySales df) i prev curr h1 h2
    have h4 : (salesPctChange df)[i + 1]? =
        ((pctChange (monthlySales df))[i + 1]?).map pmul100 := by
      simp [salesPctChange]
    rw [h4, h3]
    by_cases hp : prev = 0
    · subst hp
      by_cases hc1 : 0 < curr
      · simp [pandasDiv, hc1, pmul100]
      · by_cases hc2 : curr < 0 <;>
          simp [pandasDiv, hc1, hc2, pmul100]
    · simp [pandasDiv, hp, pmul100]

/-- C4 witness: on the spec's two-month scenario (totals 1000 then 1500)
the formula gives the finite change (1500-1000)/1000*100. -/
theorem C4_pct_change_semantics_witness :
    (salesPctChange
        [{ period := some 1, product := "A", staff := "X", customer := "Y",
           sales := some 1000, cost := some 600, profit := some 400 },
         { period := some 2, product := "A", staff := "X", customer := "Y",
           sales := some 1500, cost := some 800, profit := some 700 }])[1]? = some
      (if (1000 : Rat) = 0 then
        (if 0 < (1500 : Rat) then PVal.pinf
         else if (1500 : Rat) < 0 then PVal.ninf else PVal.nan)
       else PVal.fin (((1500 : Rat) - 1000) / 1000 * 100)) :=
  (C4_pct_change_semantics
      [{ period := some 1, product := "A", staff := "X", customer := "Y",
         sales := some 1000, cost := some 600, profit := some 400 },
       { period := some 2, product := "A", staff := "X", customer := "Y",
         sales := some 1500, cost := some 800, profit := some 700 }]).2
    0 1000 1500 (by decide) (by decide)
